import Mathlib

/-!
Verification of the rendering and control-flow logic of
`discord-newsletter-maker` (`newsletter.py`), via a shallow embedding.

Python values appearing in the data flow (parsed JSON documents) are
modelled by the inductive type `Json`.  Python numbers are modelled by the
integer fragment (`Int`); no claim involves numeric fields.  A Python
`dict` is modelled as an association list with distinct keys (which is
what `json.loads` produces); lookups take the first matching binding.

Python exceptions are modelled by `Except PyErr`; a `SystemExit` raised by
the program is modelled by `Except String` (the exit message).
-/

inductive Json where
  | null
  | bool (b : Bool)
  | num (n : Int)
  | str (s : String)
  | arr (elems : List Json)
  | obj (fields : List (String × Json))

/-- Python exceptions that the embedded code can raise. -/
inductive PyErr where
  | attributeError
  | typeError
  | indexError
deriving DecidableEq

/-- Python truthiness (`bool(v)`) for the modelled values. -/
def truthy : Json → Bool
  | Json.null => false
  | Json.bool b => b
  | Json.num n => n != 0
  | Json.str s => s != ""
  | Json.arr xs => !xs.isEmpty
  | Json.obj kvs => !kvs.isEmpty

/-- Python `v or d`: the left operand when truthy, otherwise the right. -/
def pyOr (v d : Json) : Json :=
  if truthy v then v else d

/-- Lookup in a modelled `dict`; absent keys yield `None` (`Json.null`),
matching `dict.get(k)`.  JSON `null` values and absent keys are
indistinguishable through `.get`, exactly as in Python. -/
def jsonGet : List (String × Json) → String → Json
  | [], _ => Json.null
  | (k1, v) :: kvs, k => if k1 = k then v else jsonGet kvs k

/-- Python attribute access `v.get(k)`: succeeds on dicts, raises
`AttributeError` on every other modelled value. -/
def pyGet : Json → String → Except PyErr Json
  | Json.obj kvs, k => Except.ok (jsonGet kvs k)
  | _, _ => Except.error PyErr.attributeError

/-- Python iteration `for x in v`: lists yield their elements, strings
yield their characters (as one-character strings), dicts yield their
keys; other values raise `TypeError`. -/
def pyIter : Json → Except PyErr (List Json)
  | Json.arr xs => Except.ok xs
  | Json.str s => Except.ok (s.data.map (fun c => Json.str (String.mk [c])))
  | Json.obj kvs => Except.ok (kvs.map (fun p => Json.str p.1))
  | _ => Except.error PyErr.typeError

/-- The line-boundary characters of Python `str.splitlines`. -/
def isLineBoundary (c : Char) : Bool :=
  c = Char.ofNat 10 || c = Char.ofNat 13 || c = Char.ofNat 11 ||
  c = Char.ofNat 12 || c = Char.ofNat 28 || c = Char.ofNat 29 ||
  c = Char.ofNat 30 || c = Char.ofNat 133 || c = Char.ofNat 8232 ||
  c = Char.ofNat 8233

/-- Worker for `pySplitlines`: `acc` is the (reversed) current line.
`\r\n` counts as a single boundary; a trailing boundary produces no
trailing empty line. -/
def splitlinesAux : List Char → List Char → List String
  | [], acc => if acc = [] then [] else [String.mk acc.reverse]
  | c :: rest, acc =>
    if isLineBoundary c then
      match rest with
      | c2 :: rest2 =>
        if c = '\r' ∧ c2 = '\n' then String.mk acc.reverse :: splitlinesAux rest2 []
        else String.mk acc.reverse :: splitlinesAux (c2 :: rest2) []
      | [] => String.mk acc.reverse :: splitlinesAux [] []
    else splitlinesAux rest (c :: acc)

/-- Python `str.splitlines()`. -/
def pySplitlines (s : String) : List String :=
  splitlinesAux s.data []

/-- `v.splitlines()` on a modelled value: only strings have the method. -/
def pySplitlinesJ : Json → Except PyErr (List String)
  | Json.str s => Except.ok (pySplitlines s)
  | _ => Except.error PyErr.attributeError

/-- The whitespace characters of Python `str.strip()` / `str.isspace`. -/
def pyIsSpace (c : Char) : Bool :=
  c = Char.ofNat 32 || c = Char.ofNat 9 || c = Char.ofNat 10 ||
  c = Char.ofNat 13 || c = Char.ofNat 11 || c = Char.ofNat 12 ||
  c = Char.ofNat 28 || c = Char.ofNat 29 || c = Char.ofNat 30 ||
  c = Char.ofNat 31 || c = Char.ofNat 133 || c = Char.ofNat 160 ||
  c = Char.ofNat 5760 || (8192 ≤ c.toNat && c.toNat ≤ 8202) ||
  c = Char.ofNat 8232 || c = Char.ofNat 8233 || c = Char.ofNat 8239 ||
  c = Char.ofNat 8287 || c = Char.ofNat 12288

/-- Python `str.strip()` on the character list. -/
def stripCore (l : List Char) : List Char :=
  (((l.dropWhile pyIsSpace).reverse.dropWhile pyIsSpace)).reverse

/-- Python `str.strip()`. -/
def pyStrip (s : String) : String :=
  String.mk (stripCore s.data)

/-- Python `sep.join(xs)`. -/
def pyJoin (sep : String) : List String → String
  | [] => ""
  | [x] => x
  | x :: y :: xs => x ++ sep ++ pyJoin sep (y :: xs)

def hexDigit (n : Nat) : Char :=
  if n < 10 then Char.ofNat (48 + n) else Char.ofNat (87 + n)

def hex2 (n : Nat) : String :=
  String.mk [hexDigit (n / 16 % 16), hexDigit (n % 16)]

def hex4 (n : Nat) : String :=
  String.mk [hexDigit (n / 4096 % 16), hexDigit (n / 256 % 16),
             hexDigit (n / 16 % 16), hexDigit (n % 16)]

/-- One character of Python `repr` of a string, given the chosen quote
character `q`.  (Non-printability above U+00A0 is approximated: such
characters are kept verbatim; no claim exercises them.) -/
def pyReprChar (q : Char) (c : Char) : String :=
  if c = '\\' then "\\\\"
  else if c = q then "\\" ++ String.mk [q]
  else if c = '\n' then "\\n"
  else if c = '\r' then "\\r"
  else if c = '\t' then "\\t"
  else if c.toNat < 32 || (127 ≤ c.toNat && c.toNat ≤ 160) then "\\x" ++ hex2 c.toNat
  else String.mk [c]

/-- Python `repr` of a string: single quotes unless the string contains a
single quote and no double quote. -/
def pyReprString (s : String) : String :=
  let sq : Char := Char.ofNat 39
  let dq : Char := Char.ofNat 34
  let q : Char := if s.data.contains sq && !(s.data.contains dq) then dq else sq
  String.mk [q] ++ String.join (s.data.map (pyReprChar q)) ++ String.mk [q]

mutual

/-- Python `repr` of a modelled value. -/
def pyRepr : Json → String
  | Json.null => "None"
  | Json.bool b => if b then "True" else "False"
  | Json.num n => toString n
  | Json.str s => pyReprString s
  | Json.arr xs => "[" ++ pyJoin ", " (pyReprList xs) ++ "]"
  | Json.obj kvs => "\x7b" ++ pyJoin ", " (pyReprObj kvs) ++ "\x7d"

def pyReprList : List Json → List String
  | [] => []
  | x :: xs => pyRepr x :: pyReprList xs

def pyReprObj : List (String × Json) → List String
  | [] => []
  | (k, v) :: kvs => (pyReprString k ++ ": " ++ pyRepr v) :: pyReprObj kvs

end

/-- Python `str(v)` (the conversion used by f-strings): strings are kept
as-is, every other value falls back to its `repr`. -/
def pyToStr : Json → String
  | Json.str s => s
  | v => pyRepr v

/-- One character of `json.dumps` string escaping (`ensure_ascii` on). -/
def jsonEscChar (c : Char) : String :=
  if c = Char.ofNat 34 then "\\\""
  else if c = '\\' then "\\\\"
  else if c = '\n' then "\\n"
  else if c = '\r' then "\\r"
  else if c = '\t' then "\\t"
  else if c = Char.ofNat 8 then "\\b"
  else if c = Char.ofNat 12 then "\\f"
  else if c.toNat < 32 then "\\u" ++ hex4 c.toNat
  else if c.toNat ≤ 126 then String.mk [c]
  else if c.toNat < 65536 then "\\u" ++ hex4 c.toNat
  else
    let v := c.toNat - 65536
    "\\u" ++ hex4 (55296 + v / 1024) ++ "\\u" ++ hex4 (56320 + v % 1024)

/-- `json.dumps` of a string. -/
def jsonDumpsStr (s : String) : String :=
  "\"" ++ String.join (s.data.map jsonEscChar) ++ "\""

/-!
The embedded functions of `newsletter.py`.  Raised Python exceptions are
propagated with explicit matches, mirroring the sequential statements of
the source.
-/

/-- `load_contexts` (newsletter.py, lines 47-55).  The source computes
`contexts = data.get("contexts") if isinstance(data, dict) else None`,
replaces a `None` result by `data` when `data` is a list, and errors
unless the result is a list; that control flow collapses to this case
split: a dict is accepted iff its `contexts` value is a list, a bare
list is accepted as-is, anything else (including a dict whose `contexts`
is missing, `null`, or a non-list) is a `SystemExit` with the input
error message. -/
def load_contexts (data : Json) : Except String (List Json) :=
  match data with
  | Json.obj kvs =>
    match jsonGet kvs "contexts" with
    | Json.arr xs => Except.ok xs
    | _ => Except.error "Input JSON must include a \x27contexts\x27 array."
  | Json.arr xs => Except.ok xs
  | _ => Except.error "Input JSON must include a \x27contexts\x27 array."

/-- The body of the `for message in ...` loop (newsletter.py, lines 66-72)
for a single message record. -/
def renderMessage (message : Json) : Except PyErr (List String) :=
  match pyGet message "author" with
  | Except.error e => Except.error e
  | Except.ok author =>
    match pyGet message "content" with
    | Except.error e => Except.error e
    | Except.ok content =>
      match pySplitlinesJ (pyOr content (Json.str "")) with
      | Except.error e => Except.error e
      | Except.ok ls =>
        let messageLines := if ls = [] then [""] else ls
        Except.ok
          ((pyToStr (pyOr author (Json.str "Unknown")) ++ ": " ++ messageLines.headD "")
            :: messageLines.tail.map (fun l => "    " ++ l))

/-- The body of the `for link in ...` loop (newsletter.py, lines 74-81)
for a single link record. -/
def renderLink (link : Json) : Except PyErr (List String) :=
  match pyGet link "url" with
  | Except.error e => Except.error e
  | Except.ok url0 =>
    let url := pyOr url0 (Json.str "")
    match pyGet link "posted_by" with
    | Except.error e => Except.error e
    | Except.ok postedBy0 =>
      let postedBy := pyToStr (pyOr postedBy0 (Json.str "Unknown"))
      let linkLine :=
        if truthy url then
          ["    [link] " ++ pyToStr url ++ " (posted by " ++ postedBy ++ ")"]
        else []
      match pyGet link "description" with
      | Except.error e => Except.error e
      | Except.ok description0 =>
        let description := pyOr description0 (Json.str "")
        let descLine :=
          if truthy description then ["    [description] " ++ pyToStr description]
          else []
        Except.ok (linkLine ++ descLine)

/-- The messages loop of `render_contexts`: lines contributed by a list of
message records, in order; the first raised exception aborts. -/
def renderMessages : List Json → Except PyErr (List String)
  | [] => Except.ok []
  | m :: ms =>
    match renderMessage m with
    | Except.error e => Except.error e
    | Except.ok ls =>
      match renderMessages ms with
      | Except.error e => Except.error e
      | Except.ok rest => Except.ok (ls ++ rest)

/-- The links loop of `render_contexts`. -/
def renderLinks : List Json → Except PyErr (List String)
  | [] => Except.ok []
  | l :: ls =>
    match renderLink l with
    | Except.error e => Except.error e
    | Except.ok lines =>
      match renderLinks ls with
      | Except.error e => Except.error e
      | Except.ok rest => Except.ok (lines ++ rest)

/-- One iteration of the outer `for context in contexts` loop
(newsletter.py, lines 61-83): the header line, the message lines, the
link lines, and the trailing blank line appended after every context. -/
def renderContext (context : Json) : Except PyErr (List String) :=
  match pyGet context "source" with
  | Except.error e => Except.error e
  | Except.ok source =>
    match pyGet context "timestamp" with
    | Except.error e => Except.error e
    | Except.ok timestamp =>
      let header :=
        "=== " ++ pyToStr (pyOr source (Json.str "unknown file")) ++ " @ "
          ++ pyToStr (pyOr timestamp (Json.str "unknown time")) ++ " ==="
      match pyGet context "messages" with
      | Except.error e => Except.error e
      | Except.ok messagesV =>
        match pyIter (pyOr messagesV (Json.arr [])) with
        | Except.error e => Except.error e
        | Except.ok messages =>
          match renderMessages messages with
          | Except.error e => Except.error e
          | Except.ok messageLines =>
            match pyGet context "links" with
            | Except.error e => Except.error e
            | Except.ok linksV =>
              match pyIter (pyOr linksV (Json.arr [])) with
              | Except.error e => Except.error e
              | Except.ok links =>
                match renderLinks links with
                | Except.error e => Except.error e
                | Except.ok linkLines =>
                  Except.ok ((header :: messageLines) ++ linkLines ++ [""])

/-- The accumulated `lines` list across all contexts. -/
def renderContextsLines : List Json → Except PyErr (List String)
  | [] => Except.ok []
  | c :: cs =>
    match renderContext c with
    | Except.error e => Except.error e
    | Except.ok b =>
      match renderContextsLines cs with
      | Except.error e => Except.error e
      | Except.ok rest => Except.ok (b ++ rest)

/-- `render_contexts` (newsletter.py, lines 58-85):
`"\n".join(lines).strip()`. -/
def render_contexts (contexts : List Json) : Except PyErr String :=
  match renderContextsLines contexts with
  | Except.error e => Except.error e
  | Except.ok lines => Except.ok (pyStrip (pyJoin "\n" lines))

/-- Proof-side regrouping of `renderContextsLines`: the same computation,
keeping each context's block separate. -/
def renderContextBlocks : List Json → Except PyErr (List (List String))
  | [] => Except.ok []
  | c :: cs =>
    match renderContext c with
    | Except.error e => Except.error e
    | Except.ok b =>
      match renderContextBlocks cs with
      | Except.error e => Except.error e
      | Except.ok bs => Except.ok (b :: bs)

/-- The errors the `openai` client can raise at the completion call, as
caught by `main` (newsletter.py, line 153). -/
inductive ApiFailure where
  | apiError (msg : String)
  | apiConnectionError (msg : String)
  | apiTimeoutError (msg : String)
  | authenticationError (msg : String)

/-- `str(exc)` for a caught provider failure. -/
def apiFailureMsg : ApiFailure → String
  | ApiFailure.apiError m => m
  | ApiFailure.apiConnectionError m => m
  | ApiFailure.apiTimeoutError m => m
  | ApiFailure.authenticationError m => m

/-- The message object of one response choice (`choice.message`). -/
structure ChatMessageOut where
  content : Option String

/-- One response choice. -/
structure Choice where
  message : ChatMessageOut

/-- The provider's chat-completions response. -/
structure ChatResponse where
  choices : List Choice

/-- Python `v or d` on an optional string (`None` and `""` are falsy). -/
def pyOrStr (v : Option String) (d : String) : String :=
  match v with
  | some s => if s = "" then d else s
  | none => d

/-- `run_completion` (newsletter.py, lines 88-103), applied to the
response of the already-performed network call:
`response.choices[0]` (raising `IndexError` when there is no choice),
then `choice.message.content or ""`. -/
def run_completion (response : ChatResponse) : Except PyErr String :=
  match response.choices with
  | [] => Except.error PyErr.indexError
  | choice :: _ => Except.ok (pyOrStr choice.message.content "")

/-- The user message sent with the request (newsletter.py, lines 96-98). -/
def userMessage (context : String) : String :=
  "Create the newsletter from these Discord snippets:\n\n" ++ context

/-- Python `a or b` on optional strings (for `args.api_key or os.getenv(...)`). -/
def pyOrOpt (a b : Option String) : Option String :=
  match a with
  | some s => if s = "" then b else some s
  | none => b

/-- How a run of `main` terminates abnormally. -/
inductive RunError where
  | systemExit (msg : String)
  | uncaught (e : PyErr)

/-- The side effects of a successful run: the content written to
`newsletter_context.json` and the text printed to standard output. -/
structure RunOutput where
  outputFile : String
  stdout : String

/-- The output-file content `json.dumps(\x7b"LINK_CONTENT": newsletter\x7d)`
(newsletter.py, line 159). -/
def outputFileContent (newsletter : String) : String :=
  "\x7b\"LINK_CONTENT\": " ++ jsonDumpsStr newsletter ++ "\x7d"

/-- `main`, lines 139-141: `load_contexts` followed by the emptiness
check. -/
def mainLoadContexts (data : Json) : Except String (List Json) :=
  match load_contexts data with
  | Except.error msg => Except.error msg
  | Except.ok contexts =>
    if contexts.isEmpty then Except.error "No link contexts found in input JSON."
    else Except.ok contexts

/-- `main` (newsletter.py, lines 106-161), over the run's inputs: the
`--api-key` argument, the `OPENAI_API_KEY` environment variable, the
parsed input JSON, and the provider's behaviour on the request built for
the rendered context.  Argument parsing and the HTTP transport are
external collaborators and stay outside the model. -/
def pymain (apiKeyArg envKey : Option String) (data : Json)
    (provider : String → Except ApiFailure ChatResponse) : Except RunError RunOutput :=
  match pyOrOpt apiKeyArg envKey with
  | none =>
    Except.error (RunError.systemExit
      "Missing OpenAI API key. Set OPENAI_API_KEY or pass --api-key.")
  | some key =>
    if key = "" then
      Except.error (RunError.systemExit
        "Missing OpenAI API key. Set OPENAI_API_KEY or pass --api-key.")
    else
      match mainLoadContexts data with
      | Except.error msg => Except.error (RunError.systemExit msg)
      | Except.ok contexts =>
        match render_contexts contexts with
        | Except.error e => Except.error (RunError.uncaught e)
        | Except.ok context =>
          match provider (userMessage context) with
          | Except.error exc =>
            Except.error (RunError.systemExit ("OpenAI API error: " ++ apiFailureMsg exc))
          | Except.ok response =>
            match run_completion response with
            | Except.error e => Except.error (RunError.uncaught e)
            | Except.ok text =>
              let newsletter := pyStrip text
              if newsletter = "" then
                Except.error (RunError.systemExit "Model returned an empty newsletter.")
              else Except.ok ⟨outputFileContent newsletter, newsletter ++ "\n"⟩

/-!
Lemmas about the embedded Python primitives.
-/

theorem splitlinesAux_nil (acc : List Char) :
    splitlinesAux [] acc = if acc = [] then [] else [String.mk acc.reverse] := by
  rw [splitlinesAux.eq_def]

theorem splitlinesAux_crlf (rest acc : List Char) :
    splitlinesAux ('\r' :: '\n' :: rest) acc = String.mk acc.reverse :: splitlinesAux rest [] := by
  rw [splitlinesAux.eq_def]
  simp [isLineBoundary]

theorem splitlinesAux_boundary_cons (c c2 : Char) (rest2 acc : List Char)
    (hb : isLineBoundary c = true) (h : ¬ (c = '\r' ∧ c2 = '\n')) :
    splitlinesAux (c :: c2 :: rest2) acc = String.mk acc.reverse :: splitlinesAux (c2 :: rest2) [] := by
  rw [splitlinesAux.eq_def]
  simp [hb, h]

theorem splitlinesAux_boundary_last (c : Char) (acc : List Char) (hb : isLineBoundary c = true) :
    splitlinesAux [c] acc = [String.mk acc.reverse] := by
  rw [splitlinesAux.eq_def]
  simp [hb, splitlinesAux]

theorem splitlinesAux_nonboundary (c : Char) (rest acc : List Char) (hb : isLineBoundary c = false) :
    splitlinesAux (c :: rest) acc = splitlinesAux rest (c :: acc) := by
  rw [splitlinesAux.eq_def]
  simp [hb]

/-- A nonempty input (or a nonempty current line) always yields at least
one line. -/
theorem splitlinesAux_ne_nil : ∀ (cs acc : List Char), (cs ≠ [] ∨ acc ≠ []) →
    splitlinesAux cs acc ≠ [] := by
  intro cs acc
  induction cs, acc using splitlinesAux.induct with
  | case1 =>
    intro h
    rcases h with h | h <;> exact absurd rfl h
  | case2 acc hacc =>
    intro _
    rw [splitlinesAux_nil, if_neg hacc]
    simp
  | case3 c acc hb c2 rest2 hcr ih =>
    intro _
    obtain ⟨hc, hc2⟩ := hcr
    subst hc; subst hc2
    rw [splitlinesAux_crlf]
    simp
  | case4 c acc hb c2 rest2 hcr ih =>
    intro _
    rw [splitlinesAux_boundary_cons c c2 rest2 acc hb hcr]
    simp
  | case5 c acc hb ih =>
    intro _
    rw [splitlinesAux_boundary_last c acc hb]
    simp
  | case6 c rest acc hb ih =>
    intro _
    rw [splitlinesAux_nonboundary c rest acc (by simpa using hb)]
    rcases rest with _ | ⟨c2, rest2⟩
    · rw [splitlinesAux_nil]
      simp
    · exact ih (Or.inl (by simp))

/-- A nonempty string splits into at least one line. -/
theorem pySplitlines_ne_nil (s : String) (h : s ≠ "") : pySplitlines s ≠ [] := by
  unfold pySplitlines
  apply splitlinesAux_ne_nil
  left
  intro hd
  apply h
  cases s with
  | mk data => cases hd; rfl

/-- Appending one `"\n"` to an input that does not end in a line boundary
(or ends in `"\r"`, with which the new `"\n"` merges) does not change the
split. -/
theorem splitlinesAux_append_newline : ∀ (cs acc : List Char), cs ≠ [] →
    (∀ ch, cs.getLast? = some ch → isLineBoundary ch = false ∨ ch = '\r') →
    splitlinesAux (cs ++ ['\n']) acc = splitlinesAux cs acc := by
  intro cs acc
  induction cs, acc using splitlinesAux.induct with
  | case1 =>
    intro h
    exact absurd rfl h
  | case2 acc hacc =>
    intro h
    exact absurd rfl h
  | case3 c acc hb c2 rest2 hcr ih =>
    intro _ hlast
    obtain ⟨hc, hc2⟩ := hcr
    subst hc; subst hc2
    rcases rest2 with _ | ⟨c3, rest3⟩
    · exfalso
      have h2 := hlast '\n' (by simp)
      simp [isLineBoundary] at h2
    · have hlast2 : ∀ ch, (c3 :: rest3).getLast? = some ch →
          isLineBoundary ch = false ∨ ch = '\r' := by
        intro ch hch
        exact hlast ch (by rw [List.getLast?_cons_cons, List.getLast?_cons_cons]; exact hch)
      rw [show ('\r' :: '\n' :: c3 :: rest3) ++ ['\n'] =
            '\r' :: '\n' :: ((c3 :: rest3) ++ ['\n']) by simp]
      rw [splitlinesAux_crlf, splitlinesAux_crlf]
      rw [ih (by simp) hlast2]
  | case4 c acc hb c2 rest2 hcr ih =>
    intro _ hlast
    have hlast2 : ∀ ch, (c2 :: rest2).getLast? = some ch →
        isLineBoundary ch = false ∨ ch = '\r' := by
      intro ch hch
      exact hlast ch (by rw [List.getLast?_cons_cons]; exact hch)
    rw [show (c :: c2 :: rest2) ++ ['\n'] = c :: c2 :: (rest2 ++ ['\n']) by simp]
    rw [splitlinesAux_boundary_cons c c2 (rest2 ++ ['\n']) acc hb hcr]
    rw [splitlinesAux_boundary_cons c c2 rest2 acc hb hcr]
    rw [show c2 :: (rest2 ++ ['\n']) = (c2 :: rest2) ++ ['\n'] by simp]
    rw [ih (by simp) hlast2]
  | case5 c acc hb ih =>
    intro _ hlast
    have hc : c = '\r' := by
      rcases hlast c (by simp) with h | h
      · rw [hb] at h; cases h
      · exact h
    subst hc
    rw [show ['\r'] ++ ['\n'] = '\r' :: '\n' :: ([] : List Char) by simp]
    rw [splitlinesAux_crlf, splitlinesAux_boundary_last _ _ hb]
    rw [splitlinesAux_nil, if_pos rfl]
  | case6 c rest acc hb ih =>
    intro _ hlast
    have hb' : isLineBoundary c = false := by simpa using hb
    rw [show (c :: rest) ++ ['\n'] = c :: (rest ++ ['\n']) by simp]
    rw [splitlinesAux_nonboundary c (rest ++ ['\n']) acc hb']
    rw [splitlinesAux_nonboundary c rest acc hb']
    rcases rest with _ | ⟨c2, rest2⟩
    · rw [show ([] : List Char) ++ ['\n'] = ['\n'] by simp]
      rw [splitlinesAux_boundary_last '\n' (c :: acc) (by simp [isLineBoundary])]
      rw [splitlinesAux_nil, if_neg (by simp)]
    · have hlast2 : ∀ ch, (c2 :: rest2).getLast? = some ch →
          isLineBoundary ch = false ∨ ch = '\r' := by
        intro ch hch
        exact hlast ch (by rw [List.getLast?_cons_cons]; exact hch)
      exact ih (by simp) hlast2

theorem pyJoin_cons (sep x : String) (ys : List String) (h : ys ≠ []) :
    pyJoin sep (x :: ys) = x ++ sep ++ pyJoin sep ys := by
  cases ys with
  | nil => exact absurd rfl h
  | cons y ys => rfl

theorem pyJoin_append (sep : String) : ∀ (xs ys : List String), xs ≠ [] → ys ≠ [] →
    pyJoin sep (xs ++ ys) = pyJoin sep xs ++ sep ++ pyJoin sep ys := by
  intro xs
  induction xs with
  | nil => intro ys h _; exact absurd rfl h
  | cons x xs ih =>
    intro ys _ hys
    cases xs with
    | nil =>
      rw [List.singleton_append, pyJoin_cons sep x ys hys]
      rfl
    | cons x2 xs2 =>
      rw [List.cons_append, pyJoin_cons sep x ((x2 :: xs2) ++ ys) (by simp)]
      rw [ih ys (by simp) hys]
      rw [pyJoin_cons sep x (x2 :: xs2) (by simp)]
      simp [String.append_assoc]

theorem stripCore_append_space (l : List Char) (c : Char) (hc : pyIsSpace c = true) :
    stripCore (l ++ [c]) = stripCore l := by
  unfold stripCore
  rw [List.dropWhile_append]
  split
  case isTrue h =>
    have h2 : List.dropWhile pyIsSpace l = [] := by
      simpa using h
    simp [List.dropWhile_cons, hc, h2, List.dropWhile_nil]
  case isFalse h =>
    have h2 : List.dropWhile pyIsSpace l ≠ [] := by
      simpa using h
    simp [List.reverse_append, List.dropWhile_cons, hc]

theorem pyStrip_append_newline (s : String) : pyStrip (s ++ "\n") = pyStrip s := by
  unfold pyStrip
  rw [String.data_append]
  rw [show ("\n" : String).data = ['\n'] from rfl]
  rw [stripCore_append_space s.data '\n' (by decide)]

/-- Removal of one key from a modelled dict (used to state that an empty
field and an absent field render identically). -/
def removeKey (k : String) (kvs : List (String × Json)) : List (String × Json) :=
  kvs.filter (fun p => p.1 != k)

theorem jsonGet_removeKey_self (k : String) : ∀ kvs, jsonGet (removeKey k kvs) k = Json.null := by
  intro kvs
  induction kvs with
  | nil => rfl
  | cons p kvs ih =>
    unfold removeKey at *
    rw [List.filter_cons]
    split
    case isTrue hkeep =>
      obtain ⟨k1, v⟩ := p
      have hne : ¬ k1 = k := by simpa using hkeep
      rw [jsonGet, if_neg hne]
      exact ih
    case isFalse hdrop =>
      exact ih

theorem jsonGet_removeKey_ne (k k' : String) (h : ¬ k' = k) :
    ∀ kvs, jsonGet (removeKey k kvs) k' = jsonGet kvs k' := by
  intro kvs
  induction kvs with
  | nil => rfl
  | cons p kvs ih =>
    unfold removeKey at *
    rw [List.filter_cons]
    obtain ⟨k1, v⟩ := p
    split
    case isTrue hkeep =>
      rw [jsonGet, jsonGet]
      split
      · rfl
      · exact ih
    case isFalse hdrop =>
      have hk1 : k1 = k := by simpa using hdrop
      rw [jsonGet, if_neg (by rw [hk1]; intro hkk; exact h hkk.symm)]
      exact ih

theorem jsonGet_cons_ne (k1 k : String) (v : Json) (kvs : List (String × Json))
    (h : ¬ k1 = k) : jsonGet ((k1, v) :: kvs) k = jsonGet kvs k := by
  rw [jsonGet, if_neg h]

theorem renderMessage_congr (kvs kvs' : List (String × Json))
    (ha : pyOr (jsonGet kvs "author") (Json.str "Unknown")
        = pyOr (jsonGet kvs' "author") (Json.str "Unknown"))
    (hc : pyOr (jsonGet kvs "content") (Json.str "")
        = pyOr (jsonGet kvs' "content") (Json.str "")) :
    renderMessage (Json.obj kvs) = renderMessage (Json.obj kvs') := by
  simp only [renderMessage, pyGet]
  rw [ha, hc]

theorem renderLink_congr (kvs kvs' : List (String × Json))
    (hu : pyOr (jsonGet kvs "url") (Json.str "")
        = pyOr (jsonGet kvs' "url") (Json.str ""))
    (hp : pyOr (jsonGet kvs "posted_by") (Json.str "Unknown")
        = pyOr (jsonGet kvs' "posted_by") (Json.str "Unknown"))
    (hd : pyOr (jsonGet kvs "description") (Json.str "")
        = pyOr (jsonGet kvs' "description") (Json.str "")) :
    renderLink (Json.obj kvs) = renderLink (Json.obj kvs') := by
  simp only [renderLink, pyGet]
  rw [hu, hp, hd]

theorem renderContext_congr (kvs kvs' : List (String × Json))
    (hs : pyOr (jsonGet kvs "source") (Json.str "unknown file")
        = pyOr (jsonGet kvs' "source") (Json.str "unknown file"))
    (ht : pyOr (jsonGet kvs "timestamp") (Json.str "unknown time")
        = pyOr (jsonGet kvs' "timestamp") (Json.str "unknown time"))
    (hm : pyOr (jsonGet kvs "messages") (Json.arr [])
        = pyOr (jsonGet kvs' "messages") (Json.arr []))
    (hl : pyOr (jsonGet kvs "links") (Json.arr [])
        = pyOr (jsonGet kvs' "links") (Json.arr [])) :
    renderContext (Json.obj kvs) = renderContext (Json.obj kvs') := by
  simp only [renderContext, pyGet]
  rw [hs, ht, hm, hl]

/-- An empty string and `None` behave identically under `or`. -/
theorem pyOr_empty_str (d : Json) : pyOr (Json.str "") d = pyOr Json.null d := by
  rfl

/-!
Well-formedness: the fragment of inputs on which rendering provably
cannot raise.  `source`, `timestamp`, `author`, `url`, `posted_by` and
`description` may hold any value (they are only stringified); `content`
must be a string or falsy; `messages`/`links` must be falsy or lists of
dicts.
-/

/-- A value that is a string or falsy. -/
def strOrFalsy (v : Json) : Bool :=
  match v with
  | Json.str _ => true
  | v => !truthy v

/-- A message record rendering cannot raise on. -/
def messageOk (m : Json) : Bool :=
  match m with
  | Json.obj kvs => strOrFalsy (jsonGet kvs "content")
  | _ => false

/-- A link record rendering cannot raise on. -/
def linkOk (l : Json) : Bool :=
  match l with
  | Json.obj _ => true
  | _ => false

/-- A `messages`/`links` field value that yields a clean iteration:
falsy (degrading to the empty list) or a list of acceptable elements. -/
def seqFieldOk (elemOk : Json → Bool) (v : Json) : Bool :=
  if truthy v then
    match v with
    | Json.arr xs => xs.all elemOk
    | _ => false
  else true

/-- A context record rendering cannot raise on. -/
def contextOk (c : Json) : Bool :=
  match c with
  | Json.obj kvs =>
    seqFieldOk messageOk (jsonGet kvs "messages") && seqFieldOk linkOk (jsonGet kvs "links")
  | _ => false

theorem seqFieldOk_iter (elemOk : Json → Bool) (v : Json) (h : seqFieldOk elemOk v = true) :
    ∃ xs, pyIter (pyOr v (Json.arr [])) = Except.ok xs ∧ ∀ x ∈ xs, elemOk x = true := by
  unfold seqFieldOk at h
  unfold pyOr
  by_cases ht : truthy v = true
  · rw [if_pos ht] at h ⊢
    cases v with
    | arr xs =>
      refine ⟨xs, rfl, ?_⟩
      simpa [List.all_eq_true] using h
    | null => exact absurd h (by simp)
    | bool b => exact absurd h (by simp)
    | num n => exact absurd h (by simp)
    | str s => exact absurd h (by simp)
    | obj kvs => exact absurd h (by simp)
  · rw [if_neg ht]
    exact ⟨[], rfl, by simp⟩

theorem renderMessage_isOk (m : Json) (h : messageOk m = true) :
    ∃ ls, renderMessage m = Except.ok ls := by
  cases m with
  | obj kvs =>
    have hc : strOrFalsy (jsonGet kvs "content") = true := by
      simpa [messageOk] using h
    obtain ⟨s, hs⟩ : ∃ s, pyOr (jsonGet kvs "content") (Json.str "") = Json.str s := by
      unfold strOrFalsy at hc
      unfold pyOr
      cases hv : jsonGet kvs "content" with
      | str s =>
        split
        · exact ⟨s, rfl⟩
        · exact ⟨"", rfl⟩
      | null => exact ⟨"", by simp [truthy]⟩
      | bool b =>
        rw [hv] at hc
        have : truthy (Json.bool b) = false := by simpa using hc
        exact ⟨"", by rw [if_neg (by simp [this])]⟩
      | num n =>
        rw [hv] at hc
        have : truthy (Json.num n) = false := by simpa using hc
        exact ⟨"", by rw [if_neg (by simp [this])]⟩
      | arr xs =>
        rw [hv] at hc
        have : truthy (Json.arr xs) = false := by simpa using hc
        exact ⟨"", by rw [if_neg (by simp [this])]⟩
      | obj kvs2 =>
        rw [hv] at hc
        have : truthy (Json.obj kvs2) = false := by simpa using hc
        exact ⟨"", by rw [if_neg (by simp [this])]⟩
  -- with content a string, every step succeeds
    simp only [renderMessage, pyGet, hs, pySplitlinesJ]
    exact ⟨_, rfl⟩
  | null => exact absurd h (by simp [messageOk])
  | bool b => exact absurd h (by simp [messageOk])
  | num n => exact absurd h (by simp [messageOk])
  | str s => exact absurd h (by simp [messageOk])
  | arr xs => exact absurd h (by simp [messageOk])

theorem renderLink_isOk (l : Json) (h : linkOk l = true) :
    ∃ ls, renderLink l = Except.ok ls := by
  cases l with
  | obj kvs => exact ⟨_, rfl⟩
  | null => exact absurd h (by simp [linkOk])
  | bool b => exact absurd h (by simp [linkOk])
  | num n => exact absurd h (by simp [linkOk])
  | str s => exact absurd h (by simp [linkOk])
  | arr xs => exact absurd h (by simp [linkOk])

theorem renderMessages_isOk : ∀ (ms : List Json), (∀ m ∈ ms, messageOk m = true) →
    ∃ ls, renderMessages ms = Except.ok ls := by
  intro ms
  induction ms with
  | nil => intro _; exact ⟨[], rfl⟩
  | cons m ms ih =>
    intro h
    obtain ⟨ls, hls⟩ := renderMessage_isOk m (h m (by simp))
    obtain ⟨rest, hrest⟩ := ih (fun m2 hm2 => h m2 (by simp [hm2]))
    refine ⟨ls ++ rest, ?_⟩
    unfold renderMessages
    rw [hls, hrest]

theorem renderLinks_isOk : ∀ (ls : List Json), (∀ l ∈ ls, linkOk l = true) →
    ∃ lines, renderLinks ls = Except.ok lines := by
  intro ls
  induction ls with
  | nil => intro _; exact ⟨[], rfl⟩
  | cons l ls ih =>
    intro h
    obtain ⟨lines, hlines⟩ := renderLink_isOk l (h l (by simp))
    obtain ⟨rest, hrest⟩ := ih (fun l2 hl2 => h l2 (by simp [hl2]))
    refine ⟨lines ++ rest, ?_⟩
    unfold renderLinks
    rw [hlines, hrest]

theorem renderContext_isOk (c : Json) (h : contextOk c = true) :
    ∃ b, renderContext c = Except.ok b := by
  cases c with
  | obj kvs =>
    have h2 : seqFieldOk messageOk (jsonGet kvs "messages") = true ∧
        seqFieldOk linkOk (jsonGet kvs "links") = true := by
      simpa [contextOk] using h
    obtain ⟨ms, hms, hmok⟩ := seqFieldOk_iter messageOk (jsonGet kvs "messages") h2.1
    obtain ⟨lks, hlks, hlok⟩ := seqFieldOk_iter linkOk (jsonGet kvs "links") h2.2
    obtain ⟨mlines, hmlines⟩ := renderMessages_isOk ms hmok
    obtain ⟨llines, hllines⟩ := renderLinks_isOk lks hlok
    simp only [renderContext, pyGet, hms, hlks, hmlines, hllines]
    exact ⟨_, rfl⟩
  | null => exact absurd h (by simp [contextOk])
  | bool b => exact absurd h (by simp [contextOk])
  | num n => exact absurd h (by simp [contextOk])
  | str s => exact absurd h (by simp [contextOk])
  | arr xs => exact absurd h (by simp [contextOk])

theorem renderContextsLines_isOk : ∀ (cs : List Json), (∀ c ∈ cs, contextOk c = true) →
    ∃ lines, renderContextsLines cs = Except.ok lines := by
  intro cs
  induction cs with
  | nil => intro _; exact ⟨[], rfl⟩
  | cons c cs ih =>
    intro h
    obtain ⟨b, hb⟩ := renderContext_isOk c (h c (by simp))
    obtain ⟨rest, hrest⟩ := ih (fun c2 hc2 => h c2 (by simp [hc2]))
    refine ⟨b ++ rest, ?_⟩
    unfold renderContextsLines
    rw [hb, hrest]

/-- A successfully rendered context block is the header line (with the
documented defaults substituted), a middle part, and the trailing blank
line. -/
theorem renderContext_shape (c : Json) (b : List String) (h : renderContext c = Except.ok b) :
    ∃ kvs rest, c = Json.obj kvs ∧
      b = ("=== " ++ pyToStr (pyOr (jsonGet kvs "source") (Json.str "unknown file")) ++ " @ "
          ++ pyToStr (pyOr (jsonGet kvs "timestamp") (Json.str "unknown time")) ++ " ===")
        :: (rest ++ [""]) := by
  cases c with
  | obj kvs =>
    simp only [renderContext, pyGet] at h
    cases hms : pyIter (pyOr (jsonGet kvs "messages") (Json.arr [])) with
    | error e => simp only [hms, reduceCtorEq] at h
    | ok ms =>
      simp only [hms] at h
      cases hml : renderMessages ms with
      | error e => simp only [hml, reduceCtorEq] at h
      | ok mlines =>
        simp only [hml] at h
        cases hls : pyIter (pyOr (jsonGet kvs "links") (Json.arr [])) with
        | error e => simp only [hls, reduceCtorEq] at h
        | ok ls =>
          simp only [hls] at h
          cases hll : renderLinks ls with
          | error e => simp only [hll, reduceCtorEq] at h
          | ok llines =>
            simp only [hll, Except.ok.injEq] at h
            refine ⟨kvs, mlines ++ llines, rfl, ?_⟩
            rw [← h]
            simp
  | null => cases h
  | bool b2 => cases h
  | num n => cases h
  | str s => cases h
  | arr xs => cases h

/-- The grouped blocks flatten to the accumulated `lines` list. -/
theorem renderContextBlocks_lines : ∀ (cs : List Json) (bs : List (List String)),
    renderContextBlocks cs = Except.ok bs → renderContextsLines cs = Except.ok bs.flatten := by
  intro cs
  induction cs with
  | nil =>
    intro bs h
    injection h with h
    subst h
    rfl
  | cons c cs ih =>
    intro bs h
    unfold renderContextBlocks at h
    unfold renderContextsLines
    cases h1 : renderContext c with
    | error e => rw [h1] at h; cases h
    | ok b =>
      rw [h1] at h
      cases h2 : renderContextBlocks cs with
      | error e => rw [h2] at h; cases h
      | ok bs2 =>
        rw [h2] at h
        injection h with h
        subst h
        rw [ih bs2 h2]
        simp

/-- The grouped blocks are in one-to-one order-preserving correspondence
with the input contexts. -/
theorem renderContextBlocks_spec : ∀ (cs : List Json) (bs : List (List String)),
    renderContextBlocks cs = Except.ok bs →
    bs.length = cs.length ∧
      ∀ i (hi : i < cs.length) (hb : i < bs.length),
        renderContext (cs.get ⟨i, hi⟩) = Except.ok (bs.get ⟨i, hb⟩) := by
  intro cs
  induction cs with
  | nil =>
    intro bs h
    injection h with h
    subst h
    exact ⟨rfl, fun i hi => absurd hi (by simp)⟩
  | cons c cs ih =>
    intro bs h
    unfold renderContextBlocks at h
    cases h1 : renderContext c with
    | error e => rw [h1] at h; cases h
    | ok b =>
      rw [h1] at h
      cases h2 : renderContextBlocks cs with
      | error e => rw [h2] at h; cases h
      | ok bs2 =>
        rw [h2] at h
        injection h with h
        subst h
        obtain ⟨hlen, hget⟩ := ih bs2 h2
        refine ⟨by simp [hlen], ?_⟩
        intro i hi hb
        cases i with
        | zero => simpa using h1
        | succ j =>
          have hj : j < cs.length := by simpa using hi
          have hjb : j < bs2.length := by simpa using hb
          simpa using hget j hj hjb

theorem nl_merge (X : String) : ("\n" : String) ++ ("\n" ++ X) = "\n\n" ++ X := by
  rw [← String.append_assoc]
  congr 1

/-- Joining the flattened per-context blocks with `"\n"` equals joining
the per-block texts with a blank line, plus one trailing newline (each
block being nonempty and ending in `""`). -/
theorem pyJoin_blocks : ∀ (bs : List (List String)),
    (∀ b ∈ bs, ∃ core, b = core ++ [""] ∧ core ≠ []) → bs ≠ [] →
    pyJoin "\n" bs.flatten =
      pyJoin "\n\n" (bs.map (fun b => pyJoin "\n" b.dropLast)) ++ "\n" := by
  intro bs
  induction bs with
  | nil => intro _ h; exact absurd rfl h
  | cons b bs ih =>
    intro h _
    obtain ⟨core, hb, hcore⟩ := h b (by simp)
    have hbne : b ≠ [] := by rw [hb]; simp
    have hdrop : b.dropLast = core := by rw [hb]; exact List.dropLast_concat
    have hjb : pyJoin "\n" b = pyJoin "\n" core ++ "\n" := by
      rw [hb, pyJoin_append "\n" core [""] hcore (by simp)]
      rw [show pyJoin "\n" [""] = "" from rfl, String.append_empty]
    cases bs with
    | nil =>
      rw [show ([b] : List (List String)).flatten = b by simp, hjb]
      rw [show List.map (fun x => pyJoin "\n" x.dropLast) [b]
            = [pyJoin "\n" b.dropLast] from rfl]
      rw [show pyJoin "\n\n" [pyJoin "\n" b.dropLast] = pyJoin "\n" b.dropLast from rfl]
      rw [hdrop]
    | cons b2 bs2 =>
      have hb2ne : b2 ≠ [] := by
        obtain ⟨core2, hb2, _⟩ := h b2 (by simp)
        rw [hb2]; simp
      have hfne : (b2 :: bs2).flatten ≠ [] := by
        rw [List.flatten_cons]
        simp [hb2ne]
      have hmapne : List.map (fun x => pyJoin "\n" x.dropLast) (b2 :: bs2) ≠ [] := by simp
      calc pyJoin "\n" ((b :: b2 :: bs2).flatten)
          = pyJoin "\n" (b ++ (b2 :: bs2).flatten) := by rw [List.flatten_cons]
        _ = pyJoin "\n" b ++ "\n" ++ pyJoin "\n" (b2 :: bs2).flatten :=
            pyJoin_append "\n" b _ hbne hfne
        _ = (pyJoin "\n" core ++ "\n") ++ "\n"
              ++ (pyJoin "\n\n" (List.map (fun x => pyJoin "\n" x.dropLast) (b2 :: bs2)) ++ "\n") := by
            rw [hjb, ih (fun b3 hb3 => h b3 (by simp [hb3])) (by simp)]
        _ = (pyJoin "\n" b.dropLast ++ "\n\n"
              ++ pyJoin "\n\n" (List.map (fun x => pyJoin "\n" x.dropLast) (b2 :: bs2))) ++ "\n" := by
            rw [hdrop]
            simp only [String.append_assoc, nl_merge]
        _ = pyJoin "\n\n" (List.map (fun x => pyJoin "\n" x.dropLast) (b :: b2 :: bs2)) ++ "\n" := by
            rw [show List.map (fun x => pyJoin "\n" x.dropLast) (b :: b2 :: bs2)
                  = pyJoin "\n" b.dropLast
                    :: List.map (fun x => pyJoin "\n" x.dropLast) (b2 :: bs2) from rfl]
            rw [pyJoin_cons "\n\n" _ _ hmapne]

theorem pyOr_str_truthy (s : String) (d : Json) (h : s ≠ "") : pyOr (Json.str s) d = Json.str s := by
  unfold pyOr truthy
  simp [h]

theorem pyOr_str_empty_default (s : String) : pyOr (Json.str s) (Json.str "") = Json.str s := by
  unfold pyOr
  split
  · rfl
  case isFalse h =>
    have hs : s = "" := by simpa [truthy] using h
    rw [hs]

/-- `renderMessage` on a record with string `author` and `content`,
expressed through `pySplitlines`. -/
theorem renderMessage_obj_str (a c : String) :
    renderMessage (Json.obj [("author", Json.str a), ("content", Json.str c)]) =
      Except.ok ((pyToStr (pyOr (Json.str a) (Json.str "Unknown")) ++ ": "
          ++ (if pySplitlines c = [] then [""] else pySplitlines c).headD "")
        :: (if pySplitlines c = [] then [""] else pySplitlines c).tail.map (fun l => "    " ++ l)) := by
  simp only [renderMessage, pyGet, jsonGet, String.reduceEq, reduceIte]
  rw [pyOr_str_empty_default c]
  simp only [pySplitlinesJ]

/-- Claim C1, counterexample: a context whose `messages` field holds a
truthy non-list (the string `"x"`) makes rendering raise
(`"x".get` — `AttributeError` on a `str`), so `render_contexts` is not
total on malformed sub-fields. -/
theorem c1_counterexample :
    render_contexts [Json.obj [("messages", Json.str "x")]]
      = Except.error PyErr.attributeError := rfl

/-- Claim C1, amended: rendering never fails when every context is a
record whose `messages` and `links` fields are absent, falsy or lists of
records, and every message's `content` is absent, falsy or a string;
absent or falsy fields degrade to the documented defaults. -/
theorem c1_amended (contexts : List Json) (h : contexts.all contextOk = true) :
    ∃ s, render_contexts contexts = Except.ok s := by
  obtain ⟨lines, hlines⟩ :=
    renderContextsLines_isOk contexts (by simpa [List.all_eq_true] using h)
  refine ⟨pyStrip (pyJoin "\n" lines), ?_⟩
  unfold render_contexts
  rw [hlines]

theorem c1_amended_witness :
    ([Json.obj [("source", Json.str "chat.log"),
        ("messages", Json.arr [Json.obj [("author", Json.str "Sam"), ("content", Json.str "hi")]]),
        ("links", Json.arr [Json.obj [("url", Json.str "u")]])]].all contextOk = true)
    ∧ ∃ s, render_contexts [Json.obj [("source", Json.str "chat.log"),
        ("messages", Json.arr [Json.obj [("author", Json.str "Sam"), ("content", Json.str "hi")]]),
        ("links", Json.arr [Json.obj [("url", Json.str "u")]])]] = Except.ok s :=
  ⟨rfl, c1_amended _ rfl⟩

/-- Claim C2: the documented single-context, single-link input renders to
exactly the three documented lines joined by newlines, with no trailing
blank line. -/
theorem c2_exact_render :
    render_contexts [Json.obj [("source", Json.str "chat.log"), ("timestamp", Json.str "t1"),
        ("messages", Json.arr []),
        ("links", Json.arr [Json.obj [("url", Json.str "https://x"),
          ("description", Json.str "cool"), ("posted_by", Json.str "alice")]])]]
      = Except.ok (pyJoin "\n" ["=== chat.log @ t1 ===",
          "    [link] https://x (posted by alice)", "    [description] cool"]) := rfl

/-- Claim C10, counterexample: for content already ending in a newline,
appending one more newline adds an indented empty line, so the rendering
is not invariant under appending `"\n"`. -/
theorem c10_counterexample :
    renderMessage (Json.obj [("author", Json.str "Sam"), ("content", Json.str "a\n")])
        = Except.ok ["Sam: a"] ∧
    renderMessage (Json.obj [("author", Json.str "Sam"), ("content", Json.str ("a\n" ++ "\n"))])
        = Except.ok ["Sam: a", "    "] ∧
    renderMessage (Json.obj [("author", Json.str "Sam"), ("content", Json.str "a\n")]) ≠
      renderMessage (Json.obj [("author", Json.str "Sam"), ("content", Json.str ("a\n" ++ "\n"))]) := by
  refine ⟨rfl, rfl, ?_⟩
  intro hEq
  have h1 : (Except.ok ["Sam: a"] : Except PyErr (List String)) = Except.ok ["Sam: a", "    "] := by
    calc (Except.ok ["Sam: a"] : Except PyErr (List String))
        = renderMessage (Json.obj [("author", Json.str "Sam"), ("content", Json.str "a\n")]) := rfl
      _ = renderMessage (Json.obj [("author", Json.str "Sam"),
            ("content", Json.str ("a\n" ++ "\n"))]) := hEq
      _ = Except.ok ["Sam: a", "    "] := rfl
  injection h1 with h2
  exact absurd h2 (by decide)

/-- Claim C10, amended: appending a single trailing newline to a
message's content does not change the rendered lines, provided the
content does not already end in a line-boundary character other than
`"\r"` (a trailing `"\r"` absorbs the appended `"\n"` as one `"\r\n"`
boundary); and content `"\n"` renders the same single line as empty
content. -/
theorem c10_amended :
    (∀ (a c : String),
      (∀ ch, c.data.getLast? = some ch → isLineBoundary ch = false ∨ ch = '\r') →
      renderMessage (Json.obj [("author", Json.str a), ("content", Json.str c)]) =
        renderMessage (Json.obj [("author", Json.str a), ("content", Json.str (c ++ "\n"))])) ∧
    (∀ (a : String),
      renderMessage (Json.obj [("author", Json.str a), ("content", Json.str "\n")]) =
        renderMessage (Json.obj [("author", Json.str a), ("content", Json.str "")])) := by
  constructor
  · intro a c hlast
    rw [renderMessage_obj_str, renderMessage_obj_str]
    by_cases hc : c = ""
    · subst hc
      rw [show ("" : String) ++ "\n" = "\n" from rfl]
      rw [show pySplitlines "" = [] from rfl, show pySplitlines "\n" = [""] from rfl]
      simp
    · have hsplit : pySplitlines (c ++ "\n") = pySplitlines c := by
        unfold pySplitlines
        rw [String.data_append, show ("\n" : String).data = ['\n'] from rfl]
        apply splitlinesAux_append_newline c.data [] ?_ hlast
        intro hd
        exact hc (by cases c with | mk d => cases hd; rfl)
      rw [hsplit]
  · intro a
    rw [renderMessage_obj_str, renderMessage_obj_str]
    rw [show pySplitlines "" = [] from rfl, show pySplitlines "\n" = [""] from rfl]
    simp

theorem c10_amended_witness :
    (∀ ch, ("hi" : String).data.getLast? = some ch → isLineBoundary ch = false ∨ ch = '\r')
    ∧ renderMessage (Json.obj [("author", Json.str "Sam"), ("content", Json.str "hi")]) =
        renderMessage (Json.obj [("author", Json.str "Sam"), ("content", Json.str ("hi" ++ "\n"))]) := by
  have hlast : ∀ ch, ("hi" : String).data.getLast? = some ch →
      isLineBoundary ch = false ∨ ch = '\r' := by
    intro ch hch
    injection hch with h2
    subst h2
    left
    decide
  exact ⟨hlast, c10_amended.1 "Sam" "hi" hlast⟩

/-- Claim C4: a message renders as `author: first-line` followed by each
further content line indented by exactly four spaces with no author; empty
content still yields exactly one line with empty remainder; content
`"a\nb"` by `"Sam"` yields `Sam: a` then `    b`. -/
theorem c4_message_lines :
    (∀ (a c : String), a ≠ "" → c ≠ "" →
      renderMessage (Json.obj [("author", Json.str a), ("content", Json.str c)]) =
        Except.ok ((a ++ ": " ++ (pySplitlines c).headD "")
          :: (pySplitlines c).tail.map (fun l => "    " ++ l))) ∧
    (∀ (a : String), a ≠ "" →
      renderMessage (Json.obj [("author", Json.str a), ("content", Json.str "")]) =
        Except.ok [a ++ ": "]) ∧
    renderMessage (Json.obj [("author", Json.str "Sam"), ("content", Json.str "a\nb")]) =
      Except.ok ["Sam: a", "    b"] := by
  refine ⟨?_, ?_, rfl⟩
  · intro a c ha hc
    rw [renderMessage_obj_str, pyOr_str_truthy a (Json.str "Unknown") ha]
    rw [if_neg (pySplitlines_ne_nil c hc)]
    rfl
  · intro a ha
    rw [renderMessage_obj_str, pyOr_str_truthy a (Json.str "Unknown") ha]
    rw [show pySplitlines "" = [] from rfl, if_pos rfl]
    simp [pyToStr]

theorem c4_message_lines_witness :
    (("Ann" : String) ≠ "" ∧ ("x\ny" : String) ≠ "" ∧
      renderMessage (Json.obj [("author", Json.str "Ann"), ("content", Json.str "x\ny")]) =
        Except.ok (("Ann" ++ ": " ++ (pySplitlines "x\ny").headD "")
          :: (pySplitlines "x\ny").tail.map (fun l => "    " ++ l))) ∧
    (("Ann" : String) ≠ "" ∧
      renderMessage (Json.obj [("author", Json.str "Ann"), ("content", Json.str "")]) =
        Except.ok ["Ann" ++ ": "]) :=
  ⟨⟨by decide, by decide, c4_message_lines.1 "Ann" "x\ny" (by decide) (by decide)⟩,
   ⟨by decide, c4_message_lines.2.1 "Ann" (by decide)⟩⟩

/-- Claim C5: a link yields the indented `[link]` line exactly when its
`url` is non-empty and the indented `[description]` line exactly when its
`description` is non-empty; empty url with non-empty description yields
only the description line; both empty yields nothing. -/
theorem c5_link_lines :
    (∀ (url desc pb : String), pb ≠ "" →
      renderLink (Json.obj [("url", Json.str url), ("description", Json.str desc),
          ("posted_by", Json.str pb)]) =
        Except.ok ((if url ≠ "" then ["    [link] " ++ url ++ " (posted by " ++ pb ++ ")"] else [])
          ++ (if desc ≠ "" then ["    [description] " ++ desc] else []))) ∧
    (∀ (desc pb : String), desc ≠ "" → pb ≠ "" →
      renderLink (Json.obj [("url", Json.str ""), ("description", Json.str desc),
          ("posted_by", Json.str pb)]) =
        Except.ok ["    [description] " ++ desc]) ∧
    (∀ (pb : String), pb ≠ "" →
      renderLink (Json.obj [("url", Json.str ""), ("description", Json.str ""),
          ("posted_by", Json.str pb)]) =
        Except.ok []) := by
  have main : ∀ (url desc pb : String), pb ≠ "" →
      renderLink (Json.obj [("url", Json.str url), ("description", Json.str desc),
          ("posted_by", Json.str pb)]) =
        Except.ok ((if url ≠ "" then ["    [link] " ++ url ++ " (posted by " ++ pb ++ ")"] else [])
          ++ (if desc ≠ "" then ["    [description] " ++ desc] else [])) := by
    intro url desc pb hpb
    simp only [renderLink, pyGet, jsonGet, String.reduceEq, reduceIte]
    rw [pyOr_str_empty_default url, pyOr_str_empty_default desc]
    rw [pyOr_str_truthy pb (Json.str "Unknown") hpb]
    by_cases hu : url = ""
    · subst hu
      by_cases hd : desc = ""
      · subst hd
        rfl
      · simp [truthy, pyToStr, hd]
    · by_cases hd : desc = ""
      · subst hd
        simp [truthy, pyToStr, hu]
      · simp [truthy, pyToStr, hu, hd]
  refine ⟨main, ?_, ?_⟩
  · intro desc pb hd hpb
    rw [main "" desc pb hpb]
    simp [hd]
  · intro pb hpb
    rw [main "" "" pb hpb]
    simp

theorem c5_link_lines_witness :
    (("bob" : String) ≠ "" ∧
      renderLink (Json.obj [("url", Json.str "https://a"), ("description", Json.str "d"),
          ("posted_by", Json.str "bob")]) =
        Except.ok ((if ("https://a" : String) ≠ "" then
            ["    [link] " ++ "https://a" ++ " (posted by " ++ "bob" ++ ")"] else [])
          ++ (if ("d" : String) ≠ "" then ["    [description] " ++ "d"] else []))) ∧
    (("d" : String) ≠ "" ∧ ("bob" : String) ≠ "" ∧
      renderLink (Json.obj [("url", Json.str ""), ("description", Json.str "d"),
          ("posted_by", Json.str "bob")]) = Except.ok ["    [description] " ++ "d"]) ∧
    (("bob" : String) ≠ "" ∧
      renderLink (Json.obj [("url", Json.str ""), ("description", Json.str ""),
          ("posted_by", Json.str "bob")]) = Except.ok []) :=
  ⟨⟨by decide, c5_link_lines.1 "https://a" "d" "bob" (by decide)⟩,
   ⟨by decide, by decide, c5_link_lines.2.1 "d" "bob" (by decide) (by decide)⟩,
   ⟨by decide, c5_link_lines.2.2 "bob" (by decide)⟩⟩

/-- Claim C7: `run_completion` returns the first response choice's text
content, and the empty string when the provider returns no content
(a `None` or empty `content`). -/
theorem c7_first_choice :
    (∀ (resp : ChatResponse) (choice : Choice) (rest : List Choice),
      resp.choices = choice :: rest →
      run_completion resp = Except.ok (pyOrStr choice.message.content "")) ∧
    (∀ (resp : ChatResponse) (choice : Choice) (rest : List Choice) (s : String),
      resp.choices = choice :: rest → choice.message.content = some s → s ≠ "" →
      run_completion resp = Except.ok s) ∧
    (∀ (resp : ChatResponse) (choice : Choice) (rest : List Choice),
      resp.choices = choice :: rest →
      (choice.message.content = none ∨ choice.message.content = some "") →
      run_completion resp = Except.ok "") := by
  have main : ∀ (resp : ChatResponse) (choice : Choice) (rest : List Choice),
      resp.choices = choice :: rest →
      run_completion resp = Except.ok (pyOrStr choice.message.content "") := by
    intro resp choice rest h
    unfold run_completion
    rw [h]
  refine ⟨main, ?_, ?_⟩
  · intro resp choice rest s h hs hne
    rw [main resp choice rest h, hs]
    simp [pyOrStr, hne]
  · intro resp choice rest h hc
    rw [main resp choice rest h]
    rcases hc with hc | hc <;> rw [hc] <;> rfl

theorem c7_first_choice_witness :
    (ChatResponse.mk [Choice.mk (ChatMessageOut.mk (some "hello"))]).choices
        = Choice.mk (ChatMessageOut.mk (some "hello")) :: [] ∧
    run_completion (ChatResponse.mk [Choice.mk (ChatMessageOut.mk (some "hello"))])
        = Except.ok (pyOrStr (some "hello") "") ∧
    run_completion (ChatResponse.mk [Choice.mk (ChatMessageOut.mk none)])
        = Except.ok "" :=
  ⟨rfl, c7_first_choice.1 _ _ [] rfl,
   c7_first_choice.2.2 (ChatResponse.mk [Choice.mk (ChatMessageOut.mk none)]) _ [] rfl (Or.inl rfl)⟩

/-- Claim C3: a top-level object with a `contexts` array and the bare
array load identically; any other shape, and an empty resulting context
list, terminate the run with an input error. -/
theorem c3_loader :
    (∀ (kvs : List (String × Json)) (xs : List Json), jsonGet kvs "contexts" = Json.arr xs →
      load_contexts (Json.obj kvs) = Except.ok xs ∧ load_contexts (Json.arr xs) = Except.ok xs) ∧
    (∀ (data : Json),
      (∀ kvs, data = Json.obj kvs → ∀ xs, jsonGet kvs "contexts" ≠ Json.arr xs) →
      (∀ xs, data ≠ Json.arr xs) →
      ∃ msg, mainLoadContexts data = Except.error msg) ∧
    (∀ (data : Json), load_contexts data = Except.ok [] →
      ∃ msg, mainLoadContexts data = Except.error msg) := by
  refine ⟨?_, ?_, ?_⟩
  · intro kvs xs h
    constructor
    · simp only [load_contexts, h]
    · rfl
  · intro data hobj harr
    cases data with
    | obj kvs =>
      cases hv : jsonGet kvs "contexts" with
      | arr xs => exact absurd hv (hobj kvs rfl xs)
      | null => exact ⟨_, by simp only [mainLoadContexts, load_contexts, hv]; rfl⟩
      | bool b => exact ⟨_, by simp only [mainLoadContexts, load_contexts, hv]; rfl⟩
      | num n => exact ⟨_, by simp only [mainLoadContexts, load_contexts, hv]; rfl⟩
      | str s => exact ⟨_, by simp only [mainLoadContexts, load_contexts, hv]; rfl⟩
      | obj kvs2 => exact ⟨_, by simp only [mainLoadContexts, load_contexts, hv]; rfl⟩
    | arr xs => exact absurd rfl (harr xs)
    | null => exact ⟨_, rfl⟩
    | bool b => exact ⟨_, rfl⟩
    | num n => exact ⟨_, rfl⟩
    | str s => exact ⟨_, rfl⟩
  · intro data h
    refine ⟨"No link contexts found in input JSON.", ?_⟩
    unfold mainLoadContexts
    rw [h]
    rfl

theorem c3_loader_witness :
    (jsonGet [("contexts", Json.arr [Json.null])] "contexts" = Json.arr [Json.null] ∧
      load_contexts (Json.obj [("contexts", Json.arr [Json.null])]) = Except.ok [Json.null] ∧
      load_contexts (Json.arr [Json.null]) = Except.ok [Json.null]) ∧
    (∃ msg, mainLoadContexts (Json.num 3) = Except.error msg) ∧
    (load_contexts (Json.arr []) = Except.ok [] ∧
      ∃ msg, mainLoadContexts (Json.arr []) = Except.error msg) := by
  refine ⟨⟨rfl, ?_⟩, ?_, rfl, ?_⟩
  · exact c3_loader.1 [("contexts", Json.arr [Json.null])] [Json.null] rfl
  · exact c3_loader.2.1 (Json.num 3) (fun kvs h => by cases h) (fun xs h => by cases h)
  · exact c3_loader.2.2 (Json.arr []) rfl

/-- Claim C9: a string field that is present but empty renders exactly as
when the field is absent (empty `source` → `unknown file`, empty
`timestamp` → `unknown time`, empty `author`/`posted_by` → `Unknown`),
and a `messages`/`links` field that is present but `null` is treated as
the empty sequence. -/
theorem c9_empty_defaults :
    (∀ kvs, jsonGet kvs "source" = Json.str "" →
      renderContext (Json.obj kvs) = renderContext (Json.obj (removeKey "source" kvs)) ∧
      pyToStr (pyOr (jsonGet kvs "source") (Json.str "unknown file")) = "unknown file") ∧
    (∀ kvs, jsonGet kvs "timestamp" = Json.str "" →
      renderContext (Json.obj kvs) = renderContext (Json.obj (removeKey "timestamp" kvs)) ∧
      pyToStr (pyOr (jsonGet kvs "timestamp") (Json.str "unknown time")) = "unknown time") ∧
    (∀ kvs, jsonGet kvs "author" = Json.str "" →
      renderMessage (Json.obj kvs) = renderMessage (Json.obj (removeKey "author" kvs)) ∧
      pyToStr (pyOr (jsonGet kvs "author") (Json.str "Unknown")) = "Unknown") ∧
    (∀ kvs, jsonGet kvs "posted_by" = Json.str "" →
      renderLink (Json.obj kvs) = renderLink (Json.obj (removeKey "posted_by" kvs)) ∧
      pyToStr (pyOr (jsonGet kvs "posted_by") (Json.str "Unknown")) = "Unknown") ∧
    (∀ kvs, jsonGet kvs "messages" = Json.null →
      renderContext (Json.obj kvs) = renderContext (Json.obj (("messages", Json.arr []) :: kvs))) ∧
    (∀ kvs, jsonGet kvs "links" = Json.null →
      renderContext (Json.obj kvs) = renderContext (Json.obj (("links", Json.arr []) :: kvs))) := by
  refine ⟨?_, ?_, ?_, ?_, ?_, ?_⟩
  · intro kvs h
    constructor
    · apply renderContext_congr
      · rw [h, pyOr_empty_str, jsonGet_removeKey_self]
      · rw [jsonGet_removeKey_ne "source" "timestamp" (by decide) kvs]
      · rw [jsonGet_removeKey_ne "source" "messages" (by decide) kvs]
      · rw [jsonGet_removeKey_ne "source" "links" (by decide) kvs]
    · rw [h]
      rfl
  · intro kvs h
    constructor
    · apply renderContext_congr
      · rw [jsonGet_removeKey_ne "timestamp" "source" (by decide) kvs]
      · rw [h, pyOr_empty_str, jsonGet_removeKey_self]
      · rw [jsonGet_removeKey_ne "timestamp" "messages" (by decide) kvs]
      · rw [jsonGet_removeKey_ne "timestamp" "links" (by decide) kvs]
    · rw [h]
      rfl
  · intro kvs h
    constructor
    · apply renderMessage_congr
      · rw [h, pyOr_empty_str, jsonGet_removeKey_self]
      · rw [jsonGet_removeKey_ne "author" "content" (by decide) kvs]
    · rw [h]
      rfl
  · intro kvs h
    constructor
    · apply renderLink_congr
      · rw [jsonGet_removeKey_ne "posted_by" "url" (by decide) kvs]
      · rw [h, pyOr_empty_str, jsonGet_removeKey_self]
      · rw [jsonGet_removeKey_ne "posted_by" "description" (by decide) kvs]
    · rw [h]
      rfl
  · intro kvs h
    apply renderContext_congr
    · rw [jsonGet_cons_ne "messages" "source" (Json.arr []) kvs (by decide)]
    · rw [jsonGet_cons_ne "messages" "timestamp" (Json.arr []) kvs (by decide)]
    · rw [h]
      rfl
    · rw [jsonGet_cons_ne "messages" "links" (Json.arr []) kvs (by decide)]
  · intro kvs h
    apply renderContext_congr
    · rw [jsonGet_cons_ne "links" "source" (Json.arr []) kvs (by decide)]
    · rw [jsonGet_cons_ne "links" "timestamp" (Json.arr []) kvs (by decide)]
    · rw [jsonGet_cons_ne "links" "messages" (Json.arr []) kvs (by decide)]
    · rw [h]
      rfl

theorem c9_empty_defaults_witness :
    (jsonGet [("source", Json.str "")] "source" = Json.str "" ∧
      renderContext (Json.obj [("source", Json.str "")]) =
        renderContext (Json.obj (removeKey "source" [("source", Json.str "")])) ∧
      pyToStr (pyOr (jsonGet [("source", Json.str "")] "source") (Json.str "unknown file"))
        = "unknown file") ∧
    (jsonGet [("messages", Json.null)] "messages" = Json.null ∧
      renderContext (Json.obj [("messages", Json.null)]) =
        renderContext (Json.obj (("messages", Json.arr []) :: [("messages", Json.null)]))) :=
  ⟨⟨rfl, (c9_empty_defaults.1 [("source", Json.str "")] rfl).1,
    (c9_empty_defaults.1 [("source", Json.str "")] rfl).2⟩,
   ⟨rfl, c9_empty_defaults.2.2.2.2.1 [("messages", Json.null)] rfl⟩⟩

/-- Claim C8: whenever the provider call fails with one of the caught
API errors, and whenever the returned text is empty after trimming, the
run terminates with an error and produces no output file and no standard
output (a successful `RunOutput` is never returned). -/
theorem c8_error_paths :
    (∀ (akey ekey : Option String) (data : Json) (f : ApiFailure),
      ∃ e, pymain akey ekey data (fun _ => Except.error f) = Except.error e) ∧
    (∀ (akey ekey : Option String) (data : Json) (resp : ChatResponse),
      (∀ s, run_completion resp = Except.ok s → pyStrip s = "") →
      ∃ e, pymain akey ekey data (fun _ => Except.ok resp) = Except.error e) := by
  constructor
  · intro akey ekey data f
    cases hk : pyOrOpt akey ekey with
    | none => exact ⟨_, by simp only [pymain, hk]; rfl⟩
    | some key =>
      by_cases hkey : key = ""
      · exact ⟨_, by simp only [pymain, hk, if_pos hkey]; rfl⟩
      · cases hl : mainLoadContexts data with
        | error msg => exact ⟨_, by simp only [pymain, hk, if_neg hkey, hl]; rfl⟩
        | ok contexts =>
          cases hr : render_contexts contexts with
          | error e => exact ⟨_, by simp only [pymain, hk, if_neg hkey, hl, hr]; rfl⟩
          | ok ctx => exact ⟨_, by simp only [pymain, hk, if_neg hkey, hl, hr]; rfl⟩
  · intro akey ekey data resp hstrip
    cases hk : pyOrOpt akey ekey with
    | none => exact ⟨_, by simp only [pymain, hk]; rfl⟩
    | some key =>
      by_cases hkey : key = ""
      · exact ⟨_, by simp only [pymain, hk, if_pos hkey]; rfl⟩
      · cases hl : mainLoadContexts data with
        | error msg => exact ⟨_, by simp only [pymain, hk, if_neg hkey, hl]; rfl⟩
        | ok contexts =>
          cases hr : render_contexts contexts with
          | error e => exact ⟨_, by simp only [pymain, hk, if_neg hkey, hl, hr]; rfl⟩
          | ok ctx =>
            cases hrc : run_completion resp with
            | error e =>
              exact ⟨_, by simp only [pymain, hk, if_neg hkey, hl, hr, hrc]; rfl⟩
            | ok s =>
              refine ⟨RunError.systemExit "Model returned an empty newsletter.", ?_⟩
              simp only [pymain, hk, if_neg hkey, hl, hr, hrc]
              rw [if_pos (hstrip s hrc)]

theorem c8_error_paths_witness :
    (∃ e, pymain none none Json.null (fun _ => Except.error (ApiFailure.apiError "boom"))
        = Except.error e) ∧
    ((∀ s, run_completion (ChatResponse.mk [Choice.mk (ChatMessageOut.mk (some " "))])
          = Except.ok s → pyStrip s = "") ∧
      ∃ e, pymain none none Json.null
          (fun _ => Except.ok (ChatResponse.mk [Choice.mk (ChatMessageOut.mk (some " "))]))
        = Except.error e) := by
  have hstrip : ∀ s, run_completion (ChatResponse.mk [Choice.mk (ChatMessageOut.mk (some " "))])
      = Except.ok s → pyStrip s = "" := by
    intro s hs
    injection hs with h2
    rw [← h2]
    rfl
  exact ⟨c8_error_paths.1 none none Json.null (ApiFailure.apiError "boom"),
    hstrip, c8_error_paths.2 none none Json.null _ hstrip⟩

/-- The per-block decomposition used to state Claim C6: every
successfully rendered block is nonempty and ends with the appended blank
line. -/
theorem renderContextBlocks_block_shape (cs : List Json) (bs : List (List String))
    (h : renderContextBlocks cs = Except.ok bs) :
    ∀ b ∈ bs, ∃ core, b = core ++ [""] ∧ core ≠ [] := by
  intro b hb
  induction cs generalizing bs with
  | nil =>
    injection h with h
    subst h
    cases hb
  | cons c cs ih =>
    unfold renderContextBlocks at h
    cases h1 : renderContext c with
    | error e => rw [h1] at h; cases h
    | ok b1 =>
      rw [h1] at h
      cases h2 : renderContextBlocks cs with
      | error e => rw [h2] at h; cases h
      | ok bs2 =>
        rw [h2] at h
        injection h with h
        subst h
        rcases List.mem_cons.mp hb with hb1 | hb2
        · subst hb1
          obtain ⟨kvs, rest, _, hshape⟩ := renderContext_shape c b h1
          refine ⟨("=== " ++ pyToStr (pyOr (jsonGet kvs "source") (Json.str "unknown file"))
              ++ " @ " ++ pyToStr (pyOr (jsonGet kvs "timestamp") (Json.str "unknown time"))
              ++ " ===") :: rest, ?_, by simp⟩
          rw [hshape]
          simp
        · exact ih bs2 h2 hb2

/-- Claim C6: the rendered text is the per-context blocks in input order,
each block headed by `=== {source} @ {timestamp} ===` with the documented
defaults, consecutive blocks separated by exactly one blank line, and the
whole result stripped of surrounding whitespace; message and link order
within a block follows the block computation order. -/
theorem c6_block_structure (contexts : List Json) (blocks : List (List String))
    (h : renderContextBlocks contexts = Except.ok blocks) :
    (blocks.length = contexts.length ∧
      ∀ i (hi : i < contexts.length) (hb : i < blocks.length),
        renderContext (contexts.get ⟨i, hi⟩) = Except.ok (blocks.get ⟨i, hb⟩)) ∧
    (∀ c b, renderContext c = Except.ok b →
      ∃ kvs rest, c = Json.obj kvs ∧
        b = ("=== " ++ pyToStr (pyOr (jsonGet kvs "source") (Json.str "unknown file")) ++ " @ "
            ++ pyToStr (pyOr (jsonGet kvs "timestamp") (Json.str "unknown time")) ++ " ===")
          :: (rest ++ [""])) ∧
    (∀ (m : Json) (ms : List Json) (lines : List String),
      renderMessages (m :: ms) = Except.ok lines →
      ∃ l1 l2, renderMessage m = Except.ok l1 ∧ renderMessages ms = Except.ok l2 ∧
        lines = l1 ++ l2) ∧
    (∀ (l : Json) (ls : List Json) (lines : List String),
      renderLinks (l :: ls) = Except.ok lines →
      ∃ l1 l2, renderLink l = Except.ok l1 ∧ renderLinks ls = Except.ok l2 ∧
        lines = l1 ++ l2) ∧
    render_contexts contexts =
      Except.ok (pyStrip (pyJoin "\n\n" (blocks.map (fun b => pyJoin "\n" b.dropLast)))) := by
  refine ⟨renderContextBlocks_spec contexts blocks h, renderContext_shape, ?_, ?_, ?_⟩
  · intro m ms lines hml
    unfold renderMessages at hml
    cases h1 : renderMessage m with
    | error e => rw [h1] at hml; cases hml
    | ok l1 =>
      rw [h1] at hml
      cases h2 : renderMessages ms with
      | error e => rw [h2] at hml; cases hml
      | ok l2 =>
        rw [h2] at hml
        injection hml with hml
        exact ⟨l1, l2, rfl, rfl, hml.symm⟩
  · intro l ls lines hll
    unfold renderLinks at hll
    cases h1 : renderLink l with
    | error e => rw [h1] at hll; cases hll
    | ok l1 =>
      rw [h1] at hll
      cases h2 : renderLinks ls with
      | error e => rw [h2] at hll; cases hll
      | ok l2 =>
        rw [h2] at hll
        injection hll with hll
        exact ⟨l1, l2, rfl, rfl, hll.symm⟩
  have hlines := renderContextBlocks_lines contexts blocks h
  unfold render_contexts
  rw [hlines]
  show Except.ok (pyStrip (pyJoin "\n" blocks.flatten))
      = Except.ok (pyStrip (pyJoin "\n\n" (blocks.map (fun b => pyJoin "\n" b.dropLast))))
  cases hbs : blocks with
  | nil => rfl
  | cons b1 bs1 =>
    rw [← hbs]
    rw [pyJoin_blocks blocks (renderContextBlocks_block_shape contexts blocks h)
      (by rw [hbs]; simp)]
    rw [pyStrip_append_newline]

theorem c6_block_structure_witness :
    renderContextBlocks [Json.obj [], Json.obj [("source", Json.str "f")]] =
      Except.ok [["=== unknown file @ unknown time ===", ""], ["=== f @ unknown time ===", ""]] ∧
    render_contexts [Json.obj [], Json.obj [("source", Json.str "f")]] =
      Except.ok (pyStrip (pyJoin "\n\n"
        ([["=== unknown file @ unknown time ===", ""], ["=== f @ unknown time ===", ""]].map
          (fun b => pyJoin "\n" b.dropLast)))) :=
  ⟨rfl, (c6_block_structure [Json.obj [], Json.obj [("source", Json.str "f")]]
      [["=== unknown file @ unknown time ===", ""], ["=== f @ unknown time ===", ""]]
      rfl).2.2.2.2⟩
